import Mathlib

/-!
Shallow embedding of the libsocket socket lifecycle core
(src/src/socket.cpp together with src/include/libsocket/socket.hpp),
POSIX branch of the conditional compilation.

Platform syscalls (socket, bind, connect, close, setsockopt, recv,
getnameinfo) are external primitives; each operation takes the outcome
of its syscalls as explicit oracle arguments (a Bool success flag and
the platform error code that GetSocketError would report on failure)
and returns the resulting member state, the raised exception if any,
and a trace of the descriptor-releasing or mode-changing calls it made.
-/

set_option autoImplicit false

namespace LibSocket

/-- POSIX sentinel: constexpr SOCKET INVALID_SOCKET = -1 (socket.hpp). -/
def INVALID_SOCKET : Int := -1

/-- Provenance of the message argument passed to the socket_exception
constructor in the source: every throw site passes either
SocketErrorMessage(e) applied to a platform error code, or a string
literal written by hand. -/
inductive ErrMsg
  | fromCode (e : Int)
  | literal (s : String)
  deriving DecidableEq

/-- Embedding of class socket_exception (socket.hpp lines 153-168):
it stores the int error code and the message it was handed. -/
structure SocketException where
  code : Int
  msg : ErrMsg
  deriving DecidableEq

/-- The exception shape thrown at every OS-failure site:
socket_exception(GetSocketError(), SocketErrorMessage(GetSocketError())). -/
def osException (e : Int) : SocketException :=
  ⟨e, ErrMsg.fromCode e⟩

/-- Whether an exception carries a human-readable message derived (via
SocketErrorMessage) from the very platform error code it stores. -/
def carriesPlatformDerivedMessage (ex : SocketException) : Bool :=
  match ex.msg with
  | ErrMsg.fromCode c => c == ex.code
  | ErrMsg.literal _ => false

/-- Address family of one addrinfo entry (AF_INET / AF_INET6 / AF_UNIX). -/
inductive Family
  | inet
  | inet6
  | unix
  deriving DecidableEq

/-- One addrinfo candidate produced by getaddrinfo, together with the
oracle telling whether socket(p->ai_family, p->ai_socktype,
p->ai_protocol) succeeds for this entry. -/
structure Candidate where
  family : Family
  createOk : Bool
  deriving DecidableEq

/-- One loop of the ServerSocket constructor (socket.cpp lines 124-145
for AF_INET6, lines 150-164 for AF_INET): walk the addrinfo chain, call
socket() on every entry of the requested family until one succeeds.
Returns the selected candidate (if any) and the list of candidates on
which socket() was actually invoked. -/
def tryCreateFamily (fam : Family) : List Candidate → Option Candidate × List Candidate
  | [] => (none, [])
  | c :: rest =>
    if c.family == fam then
      if c.createOk then (some c, [c])
      else
        let r := tryCreateFamily fam rest
        (r.1, c :: r.2)
    else
      let r := tryCreateFamily fam rest
      (r.1, r.2)

/-- Result of a successful ServerSocket construction: the selected
addrinfo entry and whether IPV6_V6ONLY was disabled on the socket. -/
structure ServerCtorResult where
  selected : Candidate
  dualStack : Bool
  deriving DecidableEq

/-- ServerSocket::ServerSocket candidate selection (socket.cpp lines
123-179): first loop over AF_INET6 entries (disabling IPV6_V6ONLY on
success, cleanupAndThrow if that setsockopt fails), IPv4 loop only when
no IPv6 descriptor was created, cleanupAndThrow when nothing was
created, then the address-reuse setsockopt for whichever socket was
made. `v6onlyOk` and `reuseOk` are the oracles for the two setsockopt
calls; the second component is the trace of candidates on which
socket() was invoked. -/
def serverSocketCtor (cands : List Candidate) (v6onlyOk reuseOk : Bool) (osErr : Int) :
    Except SocketException ServerCtorResult × List Candidate :=
  match (tryCreateFamily Family.inet6 cands).1 with
  | some c =>
    if v6onlyOk then
      if reuseOk then (Except.ok ⟨c, true⟩, (tryCreateFamily Family.inet6 cands).2)
      else (Except.error (osException osErr), (tryCreateFamily Family.inet6 cands).2)
    else (Except.error (osException osErr), (tryCreateFamily Family.inet6 cands).2)
  | none =>
    match (tryCreateFamily Family.inet cands).1 with
    | some c =>
      if reuseOk then
        (Except.ok ⟨c, false⟩,
         (tryCreateFamily Family.inet6 cands).2 ++ (tryCreateFamily Family.inet cands).2)
      else
        (Except.error (osException osErr),
         (tryCreateFamily Family.inet6 cands).2 ++ (tryCreateFamily Family.inet cands).2)
    | none =>
      (Except.error (osException osErr),
       (tryCreateFamily Family.inet6 cands).2 ++ (tryCreateFamily Family.inet cands).2)

/-- Member state of class ServerSocket (socket.hpp lines 456-463):
descriptor, owned addrinfo chain, selected entry, port. -/
structure ServerSocketState where
  serverSocket : Int
  srvAddrinfo : Option (List Candidate)
  selectedAddrInfo : Option Candidate
  port : Nat
  deriving DecidableEq

/-- ServerSocket::isValid (socket.hpp line 542). -/
def ServerSocket.isValid (s : ServerSocketState) : Bool :=
  s.serverSocket != INVALID_SOCKET

/-- ServerSocket::bind (socket.cpp lines 252-267): guard against a
missing selected addrinfo with a literal-message exception of code 0,
then ::bind; on SOCKET_ERROR throw the OS error. No member is written
on any path, so the post-state is always the input state. -/
def ServerSocket.bind (s : ServerSocketState) (bindOk : Bool) (osErr : Int) :
    Except SocketException Unit × ServerSocketState :=
  match s.selectedAddrInfo with
  | none => (Except.error ⟨0, ErrMsg.literal "bind() failed: no valid addrinfo found"⟩, s)
  | some _ =>
    if bindOk then (Except.ok (), s)
    else (Except.error (osException osErr), s)

/-- ServerSocket::close (socket.cpp lines 216-235): when the descriptor
is valid, attempt shutdown() swallowing its errors, then CloseSocket;
on CloseSocket failure throw and leave serverSocket unchanged, on
success set it to INVALID_SOCKET. Third component: the CloseSocket
invocations made. -/
def ServerSocket.close (s : ServerSocketState) (closeOk : Bool) (osErr : Int) :
    Except SocketException Unit × ServerSocketState × List Int :=
  if s.serverSocket != INVALID_SOCKET then
    if closeOk then
      (Except.ok (), ⟨INVALID_SOCKET, s.srvAddrinfo, s.selectedAddrInfo, s.port⟩, [s.serverSocket])
    else (Except.error (osException osErr), s, [s.serverSocket])
  else (Except.ok (), s, [])

/-- ServerSocket move constructor (socket.hpp lines 492-497): the
initializer list copies serverSocket, srv_addrinfo and port only —
selectedAddrInfo of the target keeps its default nullptr — and the body
resets serverSocket and srv_addrinfo of the source. First component:
the moved-to object; second: the moved-from object. -/
def ServerSocket.moveCtor (rhs : ServerSocketState) : ServerSocketState × ServerSocketState :=
  (⟨rhs.serverSocket, rhs.srvAddrinfo, none, rhs.port⟩,
   ⟨INVALID_SOCKET, none, rhs.selectedAddrInfo, rhs.port⟩)

/-- Contents of the sockaddr_storage remote-address cache of a Socket:
a sockaddr_in (four address bytes and a port), a sockaddr_in6 (sixteen
address bytes and a port), or the zero-initialized storage a client
Socket starts with. -/
inductive StoredAddr
  | v4 (b0 b1 b2 b3 : Nat) (port : Nat)
  | v6 (bytes : List Nat) (port : Nat)
  | zeroed
  deriving DecidableEq

/-- sizeof(sockaddr_in), the length stored after the v4-mapped rewrite. -/
def sizeofSockaddrIn : Nat := 16

/-- sizeof(sockaddr_in6), the length captured for an IPv6 peer. -/
def sizeofSockaddrIn6 : Nat := 28

/-- IN6_IS_ADDR_V4MAPPED: the first ten address bytes are zero and
bytes ten and eleven are 0xff. -/
def isV4Mapped (bytes : List Nat) : Bool :=
  bytes.take 12 == [0, 0, 0, 0, 0, 0, 0, 0, 0, 0, 255, 255]

/-- Model of getnameinfo with NI_NUMERICHOST, NI_NUMERICSERV on a
sockaddr_in: dotted-decimal host, colon, decimal port. -/
def formatV4 (b0 b1 b2 b3 port : Nat) : String :=
  toString b0 ++ "." ++ toString b1 ++ "." ++ toString b2 ++ "." ++ toString b3
    ++ ":" ++ toString port

/-- Model of the numeric getnameinfo rendering of a sockaddr_in6; the
exact text is produced by the platform, modelled here as a fixed
deterministic rendering of the sixteen address bytes and the port. -/
def formatV6 (bytes : List Nat) (port : Nat) : String :=
  "ip6." ++ String.intercalate "." (bytes.map toString) ++ ":" ++ toString port

/-- Numeric rendering of whatever the remote-address cache holds. -/
def formatStored : StoredAddr → String
  | StoredAddr.v4 b0 b1 b2 b3 port => formatV4 b0 b1 b2 b3 port
  | StoredAddr.v6 bytes port => formatV6 bytes port
  | StoredAddr.zeroed => ":"

/-- Member state of class Socket (socket.hpp lines 214-226):
descriptor, remote-address cache and its length, owned addrinfo chain,
selected entry, internal read buffer. -/
structure SocketState where
  clientSocket : Int
  remoteAddr : StoredAddr
  remoteAddrLength : Nat
  cliAddrinfo : Option (List Candidate)
  selectedAddrInfo : Option Candidate
  buffer : List Char
  deriving DecidableEq

/-- Socket::isValid (socket.hpp line 351). -/
def Socket.isValid (s : SocketState) : Bool :=
  s.clientSocket != INVALID_SOCKET

/-- Mode-changing / readiness syscalls a Socket operation can issue. -/
inductive Syscall
  | connectCall
  | selectCall (timeoutMillis : Int)
  | setNonBlockingCall (nonBlocking : Bool)
  | setsockoptRcvTimeout (millis : Int)
  | setsockoptSndTimeout (millis : Int)
  deriving DecidableEq

/-- Socket::setTimeout (socket.cpp lines 508-533), POSIX branch: with
forConnect=true the function returns at once having issued no syscall
("No direct connect timeout in POSIX; use non-blocking connect + select
in connect()"); otherwise SO_RCVTIMEO then SO_SNDTIMEO are set,
short-circuiting to a throw of the OS error on the first failure. -/
def Socket.setTimeout (millis : Int) (forConnect : Bool) (rcvOk sndOk : Bool) (osErr : Int) :
    Except SocketException Unit × List Syscall :=
  if forConnect then (Except.ok (), [])
  else if !rcvOk then
    (Except.error (osException osErr), [Syscall.setsockoptRcvTimeout millis])
  else if !sndOk then
    (Except.error (osException osErr),
     [Syscall.setsockoptRcvTimeout millis, Syscall.setsockoptSndTimeout millis])
  else
    (Except.ok (),
     [Syscall.setsockoptRcvTimeout millis, Syscall.setsockoptSndTimeout millis])

/-- Socket::connect (socket.cpp lines 335-348): guard against a missing
selected addrinfo with a literal-message exception of code 0, then a
single plain ::connect on the current (blocking or not) mode; on
SOCKET_ERROR throw the OS error. Second component: the syscalls
issued. -/
def Socket.connect (selectedAddrInfo : Option Candidate) (connectOk : Bool) (osErr : Int) :
    Except SocketException Unit × List Syscall :=
  match selectedAddrInfo with
  | none =>
    (Except.error ⟨0, ErrMsg.literal "Address information not available for connection."⟩, [])
  | some _ =>
    if connectOk then (Except.ok (), [Syscall.connectCall])
    else (Except.error (osException osErr), [Syscall.connectCall])

/-- Socket::close (socket.cpp lines 369-384): when the descriptor is
valid call CloseSocket — on failure throw at once (the addrinfo free
below is skipped and clientSocket keeps its value), on success set
clientSocket = INVALID_SOCKET; then free cli_addrinfo if owned and null
out selectedAddrInfo. Third component: CloseSocket invocations. -/
def Socket.close (s : SocketState) (closeOk : Bool) (osErr : Int) :
    Except SocketException Unit × SocketState × List Int :=
  if s.clientSocket != INVALID_SOCKET then
    if closeOk then
      (Except.ok (),
       ⟨INVALID_SOCKET, s.remoteAddr, s.remoteAddrLength, none, none, s.buffer⟩,
       [s.clientSocket])
    else (Except.error (osException osErr), s, [s.clientSocket])
  else
    (Except.ok (),
     ⟨s.clientSocket, s.remoteAddr, s.remoteAddrLength, none, none, s.buffer⟩,
     [])

/-- Socket move constructor (socket.hpp lines 243-250): every member
including selectedAddrInfo is taken over; the source descriptor and
both addrinfo pointers are reset and its buffer is moved from. -/
def Socket.moveCtor (rhs : SocketState) : SocketState × SocketState :=
  (⟨rhs.clientSocket, rhs.remoteAddr, rhs.remoteAddrLength, rhs.cliAddrinfo,
    rhs.selectedAddrInfo, rhs.buffer⟩,
   ⟨INVALID_SOCKET, rhs.remoteAddr, rhs.remoteAddrLength, none, none, []⟩)

/-- The exception thrown on a zero-length read:
socket_exception(0, "Connection closed by remote host."). -/
def closedByPeerException : SocketException :=
  ⟨0, ErrMsg.literal "Connection closed by remote host."⟩

/-- Socket::read specialization for std::string (socket.hpp lines
545-556): recv into the internal buffer; a SOCKET_ERROR (-1) result
throws the OS error, a zero result throws the closed-by-peer exception,
otherwise the first len buffered chars are returned. `recvLen` is the
oracle for the recv return value. -/
def Socket.readString (s : SocketState) (recvLen : Int) (osErr : Int) :
    Except SocketException String :=
  if recvLen == -1 then Except.error (osException osErr)
  else if recvLen == 0 then Except.error closedByPeerException
  else Except.ok (String.mk (s.buffer.take recvLen.toNat))

/-- Socket::read for a trivially copyable T (socket.hpp lines 305-315):
same error discipline; `value` stands for the bytes recv deposited. -/
def Socket.readTrivial (recvLen : Int) (osErr : Int) (value : Int) :
    Except SocketException Int :=
  if recvLen == -1 then Except.error (osException osErr)
  else if recvLen == 0 then Except.error closedByPeerException
  else Except.ok value

/-- Socket::getRemoteSocketAddress (socket.cpp lines 433-459): when the
cached length is zero the literal "null" is returned and nothing is
touched; otherwise, if the cache holds a v4-mapped IPv6 sockaddr, the
cache itself (mutable through the const method) is overwritten with the
equivalent sockaddr_in and the cached length shrunk to
sizeof(sockaddr_in); finally getnameinfo formats whatever the cache now
holds. Returns the string and the post-call object state. -/
def Socket.getRemoteSocketAddress (s : SocketState) : String × SocketState :=
  if 0 < s.remoteAddrLength then
    let s2 :=
      match s.remoteAddr with
      | StoredAddr.v6 bytes port =>
        if isV4Mapped bytes then
          (⟨s.clientSocket,
            StoredAddr.v4 (bytes.getD 12 0) (bytes.getD 13 0) (bytes.getD 14 0) (bytes.getD 15 0)
              port,
            sizeofSockaddrIn, s.cliAddrinfo, s.selectedAddrInfo, s.buffer⟩ : SocketState)
        else s
      | _ => s
    (formatStored s2.remoteAddr, s2)
  else ("null", s)

/-- DatagramSocket::close (socket.cpp lines 804-811): when the
descriptor is valid, CloseSocket is called with its result ignored and
sockfd is unconditionally set to INVALID_SOCKET; no throw path exists.
`closeOk` is the ignored CloseSocket outcome. Returns the new sockfd
and the CloseSocket invocations. -/
def DatagramSocket.close (sockfd : Int) (_closeOk : Bool) : Int × List Int :=
  if sockfd != INVALID_SOCKET then (INVALID_SOCKET, [sockfd])
  else (sockfd, [])

/-- Member state of class UnixSocket (socket.hpp lines 813-817). -/
structure UnixSocketState where
  sockfd : Int
  socketPath : String
  deriving DecidableEq

/-- UnixSocket::isValid. -/
def UnixSocket.isValid (s : UnixSocketState) : Bool :=
  s.sockfd != INVALID_SOCKET

/-- UnixSocket::bind (socket.cpp lines 898-906): unlink the path, then
::bind; on SOCKET_ERROR the code calls CloseSocket(sockfd) and throws —
without writing sockfd, which keeps its released value. Third
component: the CloseSocket invocations. -/
def UnixSocket.bind (s : UnixSocketState) (bindOk : Bool) (osErr : Int) :
    Except SocketException Unit × UnixSocketState × List Int :=
  if bindOk then (Except.ok (), s, [])
  else (Except.error (osException osErr), s, [s.sockfd])

/-- UnixSocket::close (socket.cpp lines 926-933): when the descriptor
is valid, CloseSocket is called with its result ignored and sockfd is
set to INVALID_SOCKET; no throw path exists. -/
def UnixSocket.close (s : UnixSocketState) (_closeOk : Bool) : UnixSocketState × List Int :=
  if s.sockfd != INVALID_SOCKET then (⟨INVALID_SOCKET, s.socketPath⟩, [s.sockfd])
  else (s, [])

/-- Predicate for an IPv6 candidate on which socket() succeeds. -/
def isUsableV6 (c : Candidate) : Bool :=
  c.family == Family.inet6 && c.createOk

/-- Predicate for an IPv4 candidate on which socket() succeeds. -/
def isUsableV4 (c : Candidate) : Bool :=
  c.family == Family.inet && c.createOk

theorem tryCreateFamily_fst (fam : Family) (l : List Candidate) :
    (tryCreateFamily fam l).1 = l.find? (fun c => c.family == fam && c.createOk) := by
  induction l with
  | nil => rfl
  | cons c rest ih =>
    by_cases hf : c.family == fam
    · by_cases hc : c.createOk
      · simp [tryCreateFamily, hf, hc, List.find?]
      · simp only [Bool.not_eq_true] at hc
        simp [tryCreateFamily, hf, hc, List.find?, ih]
    · simp only [Bool.not_eq_true] at hf
      simp [tryCreateFamily, hf, List.find?, ih]

theorem tryCreateFamily_trace (fam : Family) (l : List Candidate) :
    ∀ t ∈ (tryCreateFamily fam l).2, t.family = fam := by
  induction l with
  | nil => intro t ht; cases ht
  | cons c rest ih =>
    intro t ht
    by_cases hf : c.family == fam
    · by_cases hc : c.createOk
      · simp [tryCreateFamily, hf, hc] at ht
        subst ht
        exact eq_of_beq hf
      · simp only [Bool.not_eq_true] at hc
        simp [tryCreateFamily, hf, hc] at ht
        rcases ht with ht | ht
        · subst ht; exact eq_of_beq hf
        · exact ih t ht
    · simp only [Bool.not_eq_true] at hf
      simp [tryCreateFamily, hf] at ht
      exact ih t ht

/-- Claim C1: setTimeout(millis, forConnect=true) followed by connect()
is supposed to emulate a connect timeout by switching to non-blocking
mode, connecting, waiting on select bounded by millis, restoring the
mode, and raising a distinct ConnectTimeout error.  In the code,
setTimeout with forConnect=true returns without issuing any syscall and
without recording the timeout, and connect() issues one plain blocking
::connect with no non-blocking switch and no select; a connect that
fails (here with ETIMEDOUT = 110) raises the same generic
osException as any other connection failure, so no distinct
ConnectTimeout kind exists. -/
theorem connect_timeout_not_emulated :
    Socket.setTimeout 1000 true true true 0 = (Except.ok (), []) ∧
    Socket.connect (some ⟨Family.inet, true⟩) false 110 =
      (Except.error (osException 110), [Syscall.connectCall]) ∧
    osException 110 = ⟨110, ErrMsg.fromCode 110⟩ :=
  ⟨rfl, rfl, rfl⟩

/-- Claim C2: the handle invariant demands that a released descriptor
is never still reported valid.  UnixSocket::bind on a bind failure
calls CloseSocket on descriptor 5 (the release appears in the trace)
yet leaves sockfd = 5, so isValid() still returns true, and a
subsequent close() releases descriptor 5 a second time. -/
theorem unix_bind_failure_releases_descriptor_but_stays_valid :
    (UnixSocket.bind ⟨5, "/tmp/libsocket-test.sock"⟩ false 98).2.2 = [5] ∧
    UnixSocket.isValid (UnixSocket.bind ⟨5, "/tmp/libsocket-test.sock"⟩ false 98).2.1 = true ∧
    (UnixSocket.close (UnixSocket.bind ⟨5, "/tmp/libsocket-test.sock"⟩ false 98).2.1 true).2 =
      [5] :=
  ⟨rfl, rfl, rfl⟩

/-- Claim C3 counterexample: a ServerSocket with descriptor 7 and a
selected candidate whose ::bind fails (EADDRINUSE = 98) raises the OS
error, yet immediately afterwards isValid() still returns true — the
failed bind() does not leave the socket invalid as the claim states. -/
theorem server_bind_failure_leaves_isValid_true :
    (ServerSocket.bind ⟨7, some [⟨Family.inet6, true⟩], some ⟨Family.inet6, true⟩, 8080⟩
        false 98).1 = Except.error (osException 98) ∧
    ServerSocket.isValid
      (ServerSocket.bind ⟨7, some [⟨Family.inet6, true⟩], some ⟨Family.inet6, true⟩, 8080⟩
        false 98).2 = true :=
  ⟨rfl, rfl⟩

/-- Claim C3 amended: a bind() that fails on a socket with a selected
candidate raises a socket_exception carrying the platform error code
and performs no cleanup at all — every member, the descriptor included,
is left exactly as it was, so isValid() answers after the failed bind()
what it answered before. -/
theorem server_bind_failure_state_unchanged (s : ServerSocketState) (c : Candidate)
    (osErr : Int) (hsel : s.selectedAddrInfo = some c) :
    ServerSocket.bind s false osErr = (Except.error (osException osErr), s) ∧
    ServerSocket.isValid (ServerSocket.bind s false osErr).2 = ServerSocket.isValid s := by
  constructor
  · simp [ServerSocket.bind, hsel]
  · simp [ServerSocket.bind, hsel]

theorem server_bind_failure_state_unchanged_witness :
    ServerSocket.bind ⟨7, none, some ⟨Family.inet, true⟩, 80⟩ false 98 =
      (Except.error (osException 98), ⟨7, none, some ⟨Family.inet, true⟩, 80⟩) :=
  (server_bind_failure_state_unchanged ⟨7, none, some ⟨Family.inet, true⟩, 80⟩
    ⟨Family.inet, true⟩ 98 rfl).1

/-- Claim C7: move construction is supposed to hand the target
everything the source owned, the selected candidate included, so that
bind() keeps working after the move.  The ServerSocket move constructor
copies the descriptor and the addrinfo chain but not selectedAddrInfo —
the moved-to object holds none — so bind() on the moved-to object fails
with the no-addrinfo guard even though ::bind itself would succeed;
the Socket move constructor, by contrast, does carry the selection
over. -/
theorem server_move_ctor_loses_selected_candidate :
    (ServerSocket.moveCtor
        ⟨7, some [⟨Family.inet6, true⟩], some ⟨Family.inet6, true⟩, 8080⟩).1.selectedAddrInfo =
      none ∧
    (ServerSocket.bind
        (ServerSocket.moveCtor
          ⟨7, some [⟨Family.inet6, true⟩], some ⟨Family.inet6, true⟩, 8080⟩).1 true 0).1 =
      Except.error ⟨0, ErrMsg.literal "bind() failed: no valid addrinfo found"⟩ ∧
    (Socket.moveCtor
        ⟨3, StoredAddr.zeroed, 0, some [⟨Family.inet, true⟩], some ⟨Family.inet, true⟩,
         []⟩).1.selectedAddrInfo = some ⟨Family.inet, true⟩ :=
  ⟨rfl, rfl, rfl⟩

/-- Claim C8 counterexample: the programmer-error guard of connect()
raises socket_exception(0, "Address information not available for
connection.") — its message is a hand-written literal, not a message
derived from the stored error code, so not every error of the system
carries a platform code with a message derived from it. -/
theorem connect_guard_error_not_platform_derived :
    Socket.connect none true 0 =
      (Except.error ⟨0, ErrMsg.literal "Address information not available for connection."⟩,
       []) ∧
    carriesPlatformDerivedMessage
      ⟨0, ErrMsg.literal "Address information not available for connection."⟩ = false :=
  ⟨rfl, rfl⟩

/-- Claim C8 amended: every error raised at an OS-failure site carries
the originating platform error code together with the message
SocketErrorMessage derives from that very code; the two programmer-
error guards (connect() before a candidate exists, bind() with no
selected address) instead raise code 0 with a fixed hand-written
message that is not derived from any platform error code. -/
theorem os_errors_derived_guard_errors_literal :
    (∀ e : Int,
      (osException e).code = e ∧ carriesPlatformDerivedMessage (osException e) = true) ∧
    (∀ (connectOk : Bool) (osErr : Int),
      Socket.connect none connectOk osErr =
        (Except.error ⟨0, ErrMsg.literal "Address information not available for connection."⟩,
         []) ∧
      carriesPlatformDerivedMessage
        ⟨0, ErrMsg.literal "Address information not available for connection."⟩ = false) ∧
    (∀ (s : ServerSocketState) (bindOk : Bool) (osErr : Int), s.selectedAddrInfo = none →
      (ServerSocket.bind s bindOk osErr).1 =
        Except.error ⟨0, ErrMsg.literal "bind() failed: no valid addrinfo found"⟩ ∧
      carriesPlatformDerivedMessage
        ⟨0, ErrMsg.literal "bind() failed: no valid addrinfo found"⟩ = false) ∧
    (∀ (s : ServerSocketState) (c : Candidate) (osErr : Int), s.selectedAddrInfo = some c →
      (ServerSocket.bind s false osErr).1 = Except.error (osException osErr)) ∧
    (∀ (c : Candidate) (osErr : Int),
      Socket.connect (some c) false osErr =
        (Except.error (osException osErr), [Syscall.connectCall])) := by
  refine ⟨fun e => ⟨rfl, ?_⟩, fun connectOk osErr => ⟨rfl, rfl⟩,
    fun s bindOk osErr hsel => ⟨?_, rfl⟩, fun s c osErr hsel => ?_, fun c osErr => rfl⟩
  · simp [carriesPlatformDerivedMessage, osException]
  · simp [ServerSocket.bind, hsel]
  · simp [ServerSocket.bind, hsel]

theorem os_errors_derived_guard_errors_literal_witness :
    (ServerSocket.bind ⟨7, none, none, 80⟩ true 0).1 =
      Except.error ⟨0, ErrMsg.literal "bind() failed: no valid addrinfo found"⟩ :=
  (os_errors_derived_guard_errors_literal.2.2.1 ⟨7, none, none, 80⟩ true 0 rfl).1

theorem serverSocketCtor_v6_eq (cands : List Candidate) (v6onlyOk reuseOk : Bool)
    (osErr : Int) (c : Candidate) (h6 : (tryCreateFamily Family.inet6 cands).1 = some c) :
    serverSocketCtor cands v6onlyOk reuseOk osErr =
      (if v6onlyOk then
        if reuseOk then (Except.ok ⟨c, true⟩, (tryCreateFamily Family.inet6 cands).2)
        else (Except.error (osException osErr), (tryCreateFamily Family.inet6 cands).2)
       else (Except.error (osException osErr), (tryCreateFamily Family.inet6 cands).2)) := by
  unfold serverSocketCtor
  rw [h6]

theorem serverSocketCtor_v4_eq (cands : List Candidate) (v6onlyOk reuseOk : Bool)
    (osErr : Int) (c : Candidate) (h6 : (tryCreateFamily Family.inet6 cands).1 = none)
    (h4 : (tryCreateFamily Family.inet cands).1 = some c) :
    serverSocketCtor cands v6onlyOk reuseOk osErr =
      (if reuseOk then
        (Except.ok ⟨c, false⟩,
         (tryCreateFamily Family.inet6 cands).2 ++ (tryCreateFamily Family.inet cands).2)
       else
        (Except.error (osException osErr),
         (tryCreateFamily Family.inet6 cands).2 ++ (tryCreateFamily Family.inet cands).2)) := by
  unfold serverSocketCtor
  rw [h6, h4]

/-- Claim C5: when some IPv6 candidate yields a successfully created
descriptor, the constructor selects the first such candidate, disables
IPV6_V6ONLY on it (dualStack = true), and invokes socket() only on
IPv6 candidates — no IPv4 candidate is tried; only when no IPv6
candidate yields a descriptor is the first usable IPv4 candidate
selected (dualStack = false). -/
theorem server_ctor_prefers_ipv6_dual_stack (cands : List Candidate)
    (v6onlyOk reuseOk : Bool) (osErr : Int) :
    (∀ c : Candidate, cands.find? isUsableV6 = some c →
      (∀ t ∈ (serverSocketCtor cands v6onlyOk reuseOk osErr).2, t.family = Family.inet6) ∧
      (v6onlyOk = true → reuseOk = true →
        (serverSocketCtor cands v6onlyOk reuseOk osErr).1 = Except.ok ⟨c, true⟩)) ∧
    (cands.find? isUsableV6 = none →
      ∀ c : Candidate, cands.find? isUsableV4 = some c → reuseOk = true →
        (serverSocketCtor cands v6onlyOk reuseOk osErr).1 = Except.ok ⟨c, false⟩) := by
  constructor
  · intro c hc
    have h6 : (tryCreateFamily Family.inet6 cands).1 = some c := by
      rw [tryCreateFamily_fst]; exact hc
    rw [serverSocketCtor_v6_eq cands v6onlyOk reuseOk osErr c h6]
    constructor
    · intro t ht
      by_cases hv : v6onlyOk = true
      · by_cases hr : reuseOk = true
        · simp only [hv, hr, if_true] at ht
          exact tryCreateFamily_trace Family.inet6 cands t ht
        · simp only [hv, hr, if_true, if_false] at ht
          exact tryCreateFamily_trace Family.inet6 cands t ht
      · simp only [hv, if_false] at ht
        exact tryCreateFamily_trace Family.inet6 cands t ht
    · intro hv hr
      simp [hv, hr]
  · intro h6f c hc hr
    have h6 : (tryCreateFamily Family.inet6 cands).1 = none := by
      rw [tryCreateFamily_fst]; exact h6f
    have h4 : (tryCreateFamily Family.inet cands).1 = some c := by
      rw [tryCreateFamily_fst]; exact hc
    rw [serverSocketCtor_v4_eq cands v6onlyOk reuseOk osErr c h6 h4]
    simp [hr]

theorem server_ctor_prefers_ipv6_dual_stack_witness :
    (serverSocketCtor
        [⟨Family.inet, true⟩, ⟨Family.inet6, false⟩, ⟨Family.inet6, true⟩] true true 0).1 =
      Except.ok ⟨⟨Family.inet6, true⟩, true⟩ ∧
    (serverSocketCtor [⟨Family.inet6, false⟩, ⟨Family.inet, true⟩] true true 0).1 =
      Except.ok ⟨⟨Family.inet, true⟩, false⟩ :=
  ⟨((server_ctor_prefers_ipv6_dual_stack
      [⟨Family.inet, true⟩, ⟨Family.inet6, false⟩, ⟨Family.inet6, true⟩] true true 0).1
      ⟨Family.inet6, true⟩ rfl).2 rfl rfl,
   (server_ctor_prefers_ipv6_dual_stack
      [⟨Family.inet6, false⟩, ⟨Family.inet, true⟩] true true 0).2 rfl
      ⟨Family.inet, true⟩ rfl rfl⟩

/-- Claim C4: for each of the four socket classes, once a close() call
has completed without error, every later close() on the resulting
state returns without error, performs no CloseSocket invocation, and
leaves the state unchanged. -/
theorem close_idempotent :
    (∀ (s s2 : SocketState) (closeOk : Bool) (osErr : Int) (tr : List Int),
      Socket.close s closeOk osErr = (Except.ok (), s2, tr) →
      ∀ (closeOk2 : Bool) (osErr2 : Int),
        Socket.close s2 closeOk2 osErr2 = (Except.ok (), s2, [])) ∧
    (∀ (s s2 : ServerSocketState) (closeOk : Bool) (osErr : Int) (tr : List Int),
      ServerSocket.close s closeOk osErr = (Except.ok (), s2, tr) →
      ∀ (closeOk2 : Bool) (osErr2 : Int),
        ServerSocket.close s2 closeOk2 osErr2 = (Except.ok (), s2, [])) ∧
    (∀ (fd fd2 : Int) (closeOk : Bool) (tr : List Int),
      DatagramSocket.close fd closeOk = (fd2, tr) →
      ∀ closeOk2 : Bool, DatagramSocket.close fd2 closeOk2 = (fd2, [])) ∧
    (∀ (s s2 : UnixSocketState) (closeOk : Bool) (tr : List Int),
      UnixSocket.close s closeOk = (s2, tr) →
      ∀ closeOk2 : Bool, UnixSocket.close s2 closeOk2 = (s2, [])) := by
  refine ⟨?_, ?_, ?_, ?_⟩
  · intro s s2 closeOk osErr tr h closeOk2 osErr2
    by_cases hv : s.clientSocket = INVALID_SOCKET
    · simp only [Socket.close, hv, bne_self_eq_false, Bool.false_eq_true, if_false,
        Prod.mk.injEq, true_and] at h
      obtain ⟨hs, -⟩ := h
      rw [← hs]
      simp [Socket.close, hv]
    · have hv' : (s.clientSocket != INVALID_SOCKET) = true := bne_iff_ne.mpr hv
      by_cases hc : closeOk = true
      · simp only [Socket.close, hv', hc, if_true, Prod.mk.injEq, true_and] at h
        obtain ⟨hs, -⟩ := h
        rw [← hs]
        simp [Socket.close]
      · simp [Socket.close, hv', hc] at h
  · intro s s2 closeOk osErr tr h closeOk2 osErr2
    by_cases hv : s.serverSocket = INVALID_SOCKET
    · simp only [ServerSocket.close, hv, bne_self_eq_false, Bool.false_eq_true, if_false,
        Prod.mk.injEq, true_and] at h
      obtain ⟨hs, -⟩ := h
      rw [← hs]
      simp [ServerSocket.close, hv]
    · have hv' : (s.serverSocket != INVALID_SOCKET) = true := bne_iff_ne.mpr hv
      by_cases hc : closeOk = true
      · simp only [ServerSocket.close, hv', hc, if_true, Prod.mk.injEq, true_and] at h
        obtain ⟨hs, -⟩ := h
        rw [← hs]
        simp [ServerSocket.close]
      · simp [ServerSocket.close, hv', hc] at h
  · intro fd fd2 closeOk tr h closeOk2
    by_cases hv : fd = INVALID_SOCKET
    · simp only [DatagramSocket.close, hv, bne_self_eq_false, Bool.false_eq_true, if_false,
        Prod.mk.injEq] at h
      obtain ⟨hs, -⟩ := h
      rw [← hs]
      simp [DatagramSocket.close]
    · have hv' : (fd != INVALID_SOCKET) = true := bne_iff_ne.mpr hv
      simp only [DatagramSocket.close, hv', if_true, Prod.mk.injEq] at h
      obtain ⟨hs, -⟩ := h
      rw [← hs]
      simp [DatagramSocket.close]
  · intro s s2 closeOk tr h closeOk2
    by_cases hv : s.sockfd = INVALID_SOCKET
    · simp only [UnixSocket.close, hv, bne_self_eq_false, Bool.false_eq_true, if_false,
        Prod.mk.injEq] at h
      obtain ⟨hs, -⟩ := h
      rw [← hs]
      simp [UnixSocket.close, hv]
    · have hv' : (s.sockfd != INVALID_SOCKET) = true := bne_iff_ne.mpr hv
      simp only [UnixSocket.close, hv', if_true, Prod.mk.injEq] at h
      obtain ⟨hs, -⟩ := h
      rw [← hs]
      simp [UnixSocket.close]

theorem close_idempotent_witness :
    Socket.close ⟨INVALID_SOCKET, StoredAddr.zeroed, 0, none, none, []⟩ true 0 =
      (Except.ok (), ⟨INVALID_SOCKET, StoredAddr.zeroed, 0, none, none, []⟩, []) ∧
    ServerSocket.close ⟨INVALID_SOCKET, none, none, 8080⟩ true 0 =
      (Except.ok (), ⟨INVALID_SOCKET, none, none, 8080⟩, []) ∧
    DatagramSocket.close INVALID_SOCKET true = (INVALID_SOCKET, []) ∧
    UnixSocket.close ⟨INVALID_SOCKET, "/tmp/libsocket-test.sock"⟩ true =
      (⟨INVALID_SOCKET, "/tmp/libsocket-test.sock"⟩, []) :=
  ⟨close_idempotent.1 ⟨3, StoredAddr.zeroed, 0, none, none, []⟩
     ⟨INVALID_SOCKET, StoredAddr.zeroed, 0, none, none, []⟩ true 0 [3] rfl true 0,
   close_idempotent.2.1 ⟨4, none, none, 8080⟩ ⟨INVALID_SOCKET, none, none, 8080⟩ true 0 [4]
     rfl true 0,
   close_idempotent.2.2.1 5 INVALID_SOCKET true [5] rfl true,
   close_idempotent.2.2.2 ⟨6, "/tmp/libsocket-test.sock"⟩
     ⟨INVALID_SOCKET, "/tmp/libsocket-test.sock"⟩ true [6] rfl true⟩

/-- Claim C6: a zero-length recv makes read raise the closed-by-peer
exception — code 0, fixed literal message, not derived from any
platform fault code — while a negative-length recv makes read raise
the generic exception carrying the platform error code; the two are
never the same exception, so a graceful peer close is never reported
as an I/O error. Holds for both read specializations. -/
theorem read_zero_is_closed_by_peer_negative_is_io_error :
    ∀ (s : SocketState) (osErr : Int) (value : Int),
      Socket.readString s 0 osErr = Except.error closedByPeerException ∧
      Socket.readTrivial 0 osErr value = Except.error closedByPeerException ∧
      closedByPeerException.code = 0 ∧
      carriesPlatformDerivedMessage closedByPeerException = false ∧
      Socket.readString s (-1) osErr = Except.error (osException osErr) ∧
      Socket.readTrivial (-1) osErr value = Except.error (osException osErr) ∧
      (osException osErr).code = osErr ∧
      carriesPlatformDerivedMessage (osException osErr) = true ∧
      closedByPeerException ≠ osException osErr := by
  intro s osErr value
  refine ⟨rfl, rfl, rfl, rfl, rfl, rfl, rfl, ?_, ?_⟩
  · simp [carriesPlatformDerivedMessage, osException]
  · intro h
    exact ErrMsg.noConfusion (congrArg SocketException.msg h)

/-- Claim C9: getRemoteSocketAddress, though declared const, rewrites
the cached remote address in place on a v4-mapped IPv6 peer — the
stored sockaddr becomes the IPv4 form and the stored length shrinks to
sizeof(sockaddr_in) — so a second call observes the mutated cache (and
returns the same string with no further mutation); and when the cached
length is zero it returns the literal string "null" untouched. -/
theorem getRemoteSocketAddress_null_and_mutating (s : SocketState) :
    (s.remoteAddrLength = 0 → Socket.getRemoteSocketAddress s = ("null", s)) ∧
    (∀ (bytes : List Nat) (port : Nat),
      s.remoteAddr = StoredAddr.v6 bytes port → 0 < s.remoteAddrLength →
      isV4Mapped bytes = true →
      (Socket.getRemoteSocketAddress s).2 =
        ⟨s.clientSocket,
         StoredAddr.v4 (bytes.getD 12 0) (bytes.getD 13 0) (bytes.getD 14 0) (bytes.getD 15 0)
           port,
         sizeofSockaddrIn, s.cliAddrinfo, s.selectedAddrInfo, s.buffer⟩ ∧
      (Socket.getRemoteSocketAddress s).2.remoteAddrLength < sizeofSockaddrIn6 ∧
      Socket.getRemoteSocketAddress (Socket.getRemoteSocketAddress s).2 =
        Socket.getRemoteSocketAddress s) := by
  constructor
  · intro h0
    simp [Socket.getRemoteSocketAddress, h0]
  · intro bytes port hv6 hlen hmap
    refine ⟨?_, ?_, ?_⟩
    · simp [Socket.getRemoteSocketAddress, hlen, hv6, hmap]
    · simp [Socket.getRemoteSocketAddress, hlen, hv6, hmap, sizeofSockaddrIn, sizeofSockaddrIn6]
    · simp [Socket.getRemoteSocketAddress, hlen, hv6, hmap, sizeofSockaddrIn]

theorem getRemoteSocketAddress_null_and_mutating_witness :
    (Socket.getRemoteSocketAddress
        ⟨3, StoredAddr.v6 [0, 0, 0, 0, 0, 0, 0, 0, 0, 0, 255, 255, 192, 168, 0, 1] 8080,
         28, none, none, []⟩).2 =
      ⟨3, StoredAddr.v4 192 168 0 1 8080, sizeofSockaddrIn, none, none, []⟩ ∧
    Socket.getRemoteSocketAddress
        ⟨3, StoredAddr.zeroed, 0, none, none, []⟩ =
      ("null", ⟨3, StoredAddr.zeroed, 0, none, none, []⟩) :=
  ⟨((getRemoteSocketAddress_null_and_mutating
      ⟨3, StoredAddr.v6 [0, 0, 0, 0, 0, 0, 0, 0, 0, 0, 255, 255, 192, 168, 0, 1] 8080,
       28, none, none, []⟩).2
      [0, 0, 0, 0, 0, 0, 0, 0, 0, 0, 255, 255, 192, 168, 0, 1] 8080 rfl (by decide)
      (by decide)).1,
   (getRemoteSocketAddress_null_and_mutating
      ⟨3, StoredAddr.zeroed, 0, none, none, []⟩).1 rfl⟩

/-- Claim C10: DatagramSocket::close and UnixSocket::close never raise
for any socket state — the outcome of the descriptor-release call is
ignored and the handle ends up invalid regardless — whereas
Socket::close and ServerSocket::close on a valid descriptor whose
release call fails raise the platform error and leave the handle still
marked valid. -/
theorem nothrow_close_versus_throwing_close :
    (∀ (fd : Int) (closeOk : Bool),
      (DatagramSocket.close fd closeOk).1 = INVALID_SOCKET ∧
      DatagramSocket.close fd closeOk = DatagramSocket.close fd true) ∧
    (∀ (s : UnixSocketState) (closeOk : Bool),
      UnixSocket.isValid (UnixSocket.close s closeOk).1 = false ∧
      UnixSocket.close s closeOk = UnixSocket.close s true) ∧
    (∀ (s : SocketState) (osErr : Int), Socket.isValid s = true →
      Socket.close s false osErr = (Except.error (osException osErr), s, [s.clientSocket]) ∧
      Socket.isValid (Socket.close s false osErr).2.1 = true) ∧
    (∀ (s : ServerSocketState) (osErr : Int), ServerSocket.isValid s = true →
      ServerSocket.close s false osErr =
        (Except.error (osException osErr), s, [s.serverSocket]) ∧
      ServerSocket.isValid (ServerSocket.close s false osErr).2.1 = true) := by
  refine ⟨?_, ?_, ?_, ?_⟩
  · intro fd closeOk
    by_cases hv : fd = INVALID_SOCKET
    · simp [DatagramSocket.close, hv]
    · simp [DatagramSocket.close, bne_iff_ne.mpr hv]
  · intro s closeOk
    by_cases hv : s.sockfd = INVALID_SOCKET
    · simp [UnixSocket.close, UnixSocket.isValid, hv]
    · simp [UnixSocket.close, UnixSocket.isValid, bne_iff_ne.mpr hv]
  · intro s osErr hval
    have hbne : (s.clientSocket != INVALID_SOCKET) = true := by
      simpa [Socket.isValid] using hval
    refine ⟨?_, ?_⟩
    · simp [Socket.close, hbne]
    · simp [Socket.close, hbne, Socket.isValid]
  · intro s osErr hval
    have hbne : (s.serverSocket != INVALID_SOCKET) = true := by
      simpa [ServerSocket.isValid] using hval
    refine ⟨?_, ?_⟩
    · simp [ServerSocket.close, hbne]
    · simp [ServerSocket.close, hbne, ServerSocket.isValid]

theorem nothrow_close_versus_throwing_close_witness :
    (Socket.close ⟨3, StoredAddr.zeroed, 0, none, none, []⟩ false 9 =
      (Except.error (osException 9), ⟨3, StoredAddr.zeroed, 0, none, none, []⟩, [3]) ∧
     Socket.isValid
       (Socket.close ⟨3, StoredAddr.zeroed, 0, none, none, []⟩ false 9).2.1 = true) ∧
    (ServerSocket.close ⟨4, none, none, 8080⟩ false 9 =
      (Except.error (osException 9), ⟨4, none, none, 8080⟩, [4]) ∧
     ServerSocket.isValid (ServerSocket.close ⟨4, none, none, 8080⟩ false 9).2.1 = true) :=
  ⟨nothrow_close_versus_throwing_close.2.2.1 ⟨3, StoredAddr.zeroed, 0, none, none, []⟩ 9
     (by decide),
   nothrow_close_versus_throwing_close.2.2.2 ⟨4, none, none, 8080⟩ 9 (by decide)⟩

end LibSocket
